import Mathlib

/-!
Verification of the content-generation core of the ai-content-creator backend.

The embedding below is a shallow model of the service module that owns
content generation: the provider list, the prompt builder, the provider
response parser, the deterministic fallback templates, the TTL result cache
and the orchestrating generateContent method.  Network effects are modelled
by an explicit oracle passed to the orchestrator: the outcome of one provider
call is `Except String (Option String)` where `.error` models a thrown
provider error, `.ok none` models a call that resolved to undefined/null and
`.ok (some s)` a call that resolved to the string s.  Time is an explicit
natural-number parameter (seconds), and the process-global cache is explicit
state threaded through the orchestrator.
-/

namespace AIService

/-- One entry of the provider list declared in the service constructor:
name, endpoint url and the enabled flag.  The static header set carries no
logic and is omitted from the model. -/
structure Provider where
  name : String
  url : String
  enabled : Bool
deriving DecidableEq, Repr

/-- The provider list exactly as declared in the constructor (this.providers):
huggingface (enabled), ollama-proxy (enabled), local-llm (disabled). -/
def providers : List Provider :=
  [ ⟨"huggingface", "https://api-inference.huggingface.co/models/microsoft/DialoGPT-medium", true⟩,
    ⟨"ollama-proxy", "https://ollama-proxy.vercel.app/api/generate", true⟩,
    ⟨"local-llm", "http://localhost:11434/api/generate", false⟩ ]

/-- A content template: instructional system prompt plus the ordered section
names (the field named structure in the source, renamed because structure is
a Lean keyword). -/
structure ContentTemplate where
  systemPrompt : String
  sections : List String
deriving DecidableEq, Repr

def presentationTemplate : ContentTemplate :=
  ⟨"You are an expert presentation creator. Create a comprehensive slide deck with clear structure, engaging content, and professional formatting. Include slide titles, bullet points, and speaker notes. Format as markdown with clear slide separations.",
   ["Introduction", "Problem/Opportunity", "Solution", "Benefits", "Implementation", "Conclusion"]⟩

def documentTemplate : ContentTemplate :=
  ⟨"You are a professional document writer. Create well-structured, informative documents with proper headings, sections, and detailed content. Use professional language and clear formatting.",
   ["Executive Summary", "Introduction", "Main Content", "Analysis", "Recommendations", "Conclusion"]⟩

def socialTemplate : ContentTemplate :=
  ⟨"You are a social media expert. Create engaging, viral-worthy posts with hooks, value, and appropriate hashtags. Keep it concise but impactful.",
   ["Hook", "Value Proposition", "Call to Action", "Hashtags"]⟩

def blogTemplate : ContentTemplate :=
  ⟨"You are a content marketing expert. Write compelling blog posts with SEO optimization, engaging headlines, and valuable insights. Include introduction, main points, and conclusion.",
   ["Headline", "Introduction", "Main Points", "Examples", "Conclusion", "Call to Action"]⟩

def emailTemplate : ContentTemplate :=
  ⟨"You are an email marketing specialist. Create persuasive, well-structured emails that drive engagement and conversions. Include subject line and clear call to action.",
   ["Subject Line", "Opening", "Value Proposition", "Benefits", "Call to Action", "Closing"]⟩

/-- The object this.contentTemplates, as an association list keyed by content
type. -/
def contentTemplates : List (String × ContentTemplate) :=
  [ ("presentation", presentationTemplate),
    ("document", documentTemplate),
    ("social", socialTemplate),
    ("blog", blogTemplate),
    ("email", emailTemplate) ]

/-- The lookup contentTemplates[contentType] with the || fallback to the
document template (an absent key yields undefined, which is falsy). -/
def templateFor (contentType : String) : ContentTemplate :=
  (contentTemplates.lookup contentType).getD documentTemplate

/-- The object this.toneModifiers. -/
def toneModifiers : List (String × String) :=
  [ ("professional", "Use a professional, business-appropriate tone with formal language."),
    ("casual", "Use a casual, friendly, and conversational tone that feels approachable."),
    ("creative", "Use a creative, innovative, and inspiring tone that sparks imagination."),
    ("persuasive", "Use a persuasive, compelling, and action-oriented tone that motivates."),
    ("informative", "Use an informative, educational, and clear tone that teaches."),
    ("humorous", "Use a humorous, light-hearted, and entertaining tone that engages.") ]

/-- The object this.languageInstructions.  The english entry is the empty
string. -/
def languageInstructions : List (String × String) :=
  [ ("english", ""),
    ("spanish", "Write the entire content in Spanish (Español)."),
    ("french", "Write the entire content in French (Français)."),
    ("german", "Write the entire content in German (Deutsch)."),
    ("chinese", "Write the entire content in Chinese (中文)."),
    ("japanese", "Write the entire content in Japanese (日本語)."),
    ("portuguese", "Write the entire content in Portuguese (Português).") ]

/-- The expression this.languageInstructions[language] || two-quotes: an
unknown key gives undefined, and both undefined and the empty english entry
coerce to the empty string. -/
def languageInstructionFor (language : String) : String :=
  (languageInstructions.lookup language).getD ""

/-- The expression this.toneModifiers[tone] || two-quotes. -/
def toneInstructionFor (tone : String) : String :=
  (toneModifiers.lookup tone).getD ""

/-- The method buildPrompt(userPrompt, template, language, tone): a template
literal concatenating the system prompt, the language and tone directives,
the topic and the joined section names. -/
def buildPrompt (userPrompt : String) (template : ContentTemplate)
    (language tone : String) : String :=
  template.systemPrompt ++ "\n\n" ++ languageInstructionFor language ++ "\n"
    ++ toneInstructionFor tone ++ "\n\nTopic: " ++ userPrompt
    ++ "\n\nPlease create high-quality content following this structure: "
    ++ String.intercalate " → " template.sections
    ++ "\n\nMake it comprehensive, engaging, and actionable."

/-- Coercion of a double to a signed 32-bit integer (the JS ToInt32 abstract
operation used by the shift and bitwise-and in hashString). -/
def toInt32 (x : Int) : Int :=
  let m := x % 4294967296
  if m < 2147483648 then m else m - 4294967296

/-- One loop iteration of hashString: hash = ((hash << 5) - hash) + char
followed by hash = hash & hash.  The shift coerces to int32 and so does the
bitwise and; the subtraction and addition in between are exact. -/
def hashStep (hash : Int) (c : Char) : Int :=
  toInt32 (toInt32 (hash * 32) - hash + c.toNat)

/-- The integer value accumulated by hashString before toString. -/
def hashVal (s : String) : Int :=
  s.data.foldl hashStep 0

/-- The method hashString(str): the 32-bit rolling hash rendered in decimal
(hash.toString()).  Character codes are modelled by the unicode scalar value,
which agrees with charCodeAt on the basic multilingual plane. -/
def hashString (s : String) : String :=
  toString (hashVal s)

/-! The NodeCache instance: new NodeCache with stdTTL 3600.  Modelled as an
explicit association list of entries with their insertion time in seconds;
NodeCache keys an object by the key string, so a set replaces any prior
entry for the same key. -/

/-- One cache entry: key, stored value, insertion time (seconds). -/
structure CacheEntry where
  key : String
  val : String
  time : Nat
deriving DecidableEq, Repr

/-- The stdTTL option of the cache: 3600 seconds. -/
def cacheTTL : Nat := 3600

abbrev Cache := List CacheEntry

/-- cache.get(k) at time now: the entry stored under k if it exists and has
not outlived the TTL, else undefined. -/
def cacheGet (c : Cache) (k : String) (now : Nat) : Option String :=
  match c.find? (fun e => e.key == k) with
  | some e => if now < e.time + cacheTTL then some e.val else none
  | none => none

/-- cache.set(k, v) at time now: stores v under k, replacing any prior entry
with that key. -/
def cacheSet (c : Cache) (k v : String) (now : Nat) : Cache :=
  ⟨k, v, now⟩ :: c.filter (fun e => !(e.key == k))

/-- Number of entries stored under key k. -/
def cacheCount (c : Cache) (k : String) : Nat :=
  (c.filter (fun e => e.key == k)).length

/-- A cache state in which every fingerprint has at most one entry and no
entry stores the empty string (both hold for every cache the service ever
builds, since it only writes truthy results). -/
def CacheWF (c : Cache) : Prop :=
  (∀ k, cacheCount c k ≤ 1) ∧ (∀ e ∈ c, e.val ≠ "")

/-- Outcome of one provider call as seen by the orchestrator loop:
.error models a thrown error, .ok none a call that resolved to
undefined/null, .ok (some s) a call that resolved to the string s. -/
abbrev CallOutcome := Except String (Option String)

/-- The JS truthiness test if (result) applied to a call outcome: only a
resolved, non-empty string passes. -/
def isSuccess (r : CallOutcome) : Bool :=
  match r with
  | .ok (some s) => !(s == "")
  | _ => false

/-- The resolved value of an outcome (none for a thrown error). -/
def exVal (r : CallOutcome) : Option String :=
  match r with
  | .ok v => v
  | .error _ => none

/-- The provider loop of generateContent: for each provider of
providers.filter(p => p.enabled), try the call; a thrown error is caught and
iteration continues; a falsy result also continues; the first truthy result
is returned.  Returns the winning value (none when every enabled provider
fails) together with the names of the providers attempted, in order. -/
def tryProviders (call : Provider → CallOutcome) :
    List Provider → Option String × List String
  | [] => (none, [])
  | p :: ps =>
    if p.enabled then
      match call p with
      | .ok (some s) =>
        if s == "" then
          let r := tryProviders call ps
          (r.1, p.name :: r.2)
        else (some s, [p.name])
      | .ok none =>
        let r := tryProviders call ps
        (r.1, p.name :: r.2)
      | .error _ =>
        let r := tryProviders call ps
        (r.1, p.name :: r.2)
    else tryProviders call ps

/-- The cache key of generateContent: a template literal joining contentType,
language, tone and the topic hash with dashes. -/
def cacheKeyOf (prompt contentType language tone : String) : String :=
  contentType ++ "-" ++ language ++ "-" ++ tone ++ "-" ++ hashString prompt

/-! The fallback generator.  Every one of the five template methods starts
with the same two prefix computations (language marker, tone marker); they
are shared here as langNote and toneNote, and the remainder of each template
literal is its body function. -/

/-- The expression language !== english ? bracketed marker : empty, shared
head of every fallback template. -/
def langNote (language : String) : String :=
  if language == "english" then "" else "[Content in " ++ language ++ "]\n\n"

/-- The expression tone !== professional ? bracketed marker : empty, shared
head of every fallback template. -/
def toneNote (tone : String) : String :=
  if tone == "professional" then "" else "[" ++ tone ++ " tone]\n\n"

/-- The regex replace of all whitespace in the social hashtag:
prompt.replace of the whitespace class with the empty string. -/
def stripWhitespace (s : String) : String :=
  ⟨s.data.filter (fun c => !c.isWhitespace)⟩

/-- Body of generatePresentationTemplate after the two markers. -/
def presentationBody (prompt : String) : String :=
  "# " ++ prompt ++ "\n\n## 🎯 Slide 1: Introduction\n• Welcome to " ++ prompt
    ++ "\n• Key objectives and goals\n• Agenda overview\n\n## 📊 Slide 2: Current Situation\n• Market analysis and trends\n• Challenges and opportunities\n• Key statistics and insights\n\n## 💡 Slide 3: Our Approach\n• Innovative solution\n• Unique value proposition\n• Competitive advantages\n\n## 🚀 Slide 4: Implementation\n• Step-by-step roadmap\n• Timeline and milestones\n• Resource requirements\n\n## 📈 Slide 5: Expected Results\n• Projected outcomes\n• Success metrics\n• ROI analysis\n\n## 🎯 Slide 6: Next Steps\n• Immediate actions\n• Long-term strategy\n• Call to action\n\n---\n*Generated by AI Content Creator Pro*"

/-- The method generatePresentationTemplate(prompt, language, tone). -/
def generatePresentationTemplate (prompt language tone : String) : String :=
  langNote language ++ toneNote tone ++ presentationBody prompt

/-- Body of generateDocumentTemplate after the two markers. -/
def documentBody (prompt : String) : String :=
  "# " ++ prompt ++ "\n\n## Executive Summary\nThis comprehensive document explores " ++ prompt
    ++ ", providing detailed analysis, insights, and actionable recommendations for stakeholders.\n\n## 1. Introduction\nIn today's rapidly evolving landscape, " ++ prompt
    ++ " has become increasingly critical for organizations seeking competitive advantage and sustainable growth.\n\n## 2. Background Analysis\n### Current Market Conditions\n• Industry trends and developments\n• Competitive landscape overview\n• Regulatory environment\n\n### Key Challenges\n• Primary obstacles and barriers\n• Resource constraints\n• Technical limitations\n\n## 3. Strategic Approach\n### Methodology\nOur approach to " ++ prompt
    ++ " incorporates best practices, innovative solutions, and proven frameworks.\n\n### Implementation Framework\n• Phase 1: Assessment and planning\n• Phase 2: Development and testing\n• Phase 3: Deployment and optimization\n\n## 4. Recommendations\n### Immediate Actions\n1. Conduct comprehensive assessment\n2. Develop detailed implementation plan\n3. Secure necessary resources\n\n### Long-term Strategy\n• Continuous improvement processes\n• Performance monitoring systems\n• Scalability considerations\n\n## 5. Conclusion\nSuccessful implementation of " ++ prompt
    ++ " requires strategic planning, dedicated resources, and ongoing commitment to excellence.\n\n---\n*Generated by AI Content Creator Pro*"

/-- The method generateDocumentTemplate(prompt, language, tone). -/
def generateDocumentTemplate (prompt language tone : String) : String :=
  langNote language ++ toneNote tone ++ documentBody prompt

/-- Body of generateSocialTemplate after the two markers. -/
def socialBody (prompt : String) : String :=
  "🚀 Ready to transform your approach to " ++ prompt ++ "? Here's what you need to know! 👇\n\n✨ The game is changing, and those who adapt will thrive. " ++ prompt
    ++ " isn't just a trend—it's the future.\n\n🔥 Key insights:\n• Innovation drives success\n• Early adopters win big\n• Action beats perfection\n\n💡 Pro tip: Start small, think big, move fast!\n\n👉 What's your experience with " ++ prompt
    ++ "? Share in the comments!\n\n#Innovation #" ++ stripWhitespace prompt
    ++ " #Success #Growth #Future #Trending #GameChanger #Leadership\n\n---\n*Created with AI Content Creator Pro*"

/-- The method generateSocialTemplate(prompt, language, tone). -/
def generateSocialTemplate (prompt language tone : String) : String :=
  langNote language ++ toneNote tone ++ socialBody prompt

/-- Body of generateBlogTemplate after the two markers. -/
def blogBody (prompt : String) : String :=
  "# The Ultimate Guide to " ++ prompt ++ ": Everything You Need to Know\n\n## Introduction\nIn today's fast-paced world, understanding " ++ prompt
    ++ " has become essential for anyone looking to stay ahead of the curve. This comprehensive guide will walk you through everything you need to know.\n\n## Why " ++ prompt
    ++ " Matters Now More Than Ever\nThe landscape is shifting rapidly, and " ++ prompt
    ++ " is at the center of this transformation. Here's why it should be on your radar:\n\n• **Market Demand**: Growing interest and adoption\n• **Competitive Advantage**: Early movers gain significant benefits\n• **Future-Proofing**: Essential for long-term success\n\n## Getting Started with " ++ prompt
    ++ "\n### Step 1: Understanding the Basics\nBefore diving deep, it's crucial to grasp the fundamental concepts and principles.\n\n### Step 2: Assessing Your Current Situation\nEvaluate where you stand and identify areas for improvement.\n\n### Step 3: Creating Your Action Plan\nDevelop a strategic approach tailored to your specific needs.\n\n## Best Practices and Pro Tips\n1. **Start with clear objectives**\n2. **Focus on quality over quantity**\n3. **Measure and optimize continuously**\n4. **Stay updated with latest trends**\n\n## Common Mistakes to Avoid\n• Rushing the implementation process\n• Ignoring user feedback\n• Underestimating resource requirements\n• Failing to plan for scalability\n\n## Conclusion\n" ++ prompt
    ++ " represents a significant opportunity for growth and innovation. By following the strategies outlined in this guide, you'll be well-positioned to succeed.\n\n**Ready to get started?** The time to act is now!\n\n---\n*Published with AI Content Creator Pro*"

/-- The method generateBlogTemplate(prompt, language, tone). -/
def generateBlogTemplate (prompt language tone : String) : String :=
  langNote language ++ toneNote tone ++ blogBody prompt

/-- Body of generateEmailTemplate after the two markers. -/
def emailBody (prompt : String) : String :=
  "Subject: 🚀 Transform Your Approach to " ++ prompt ++ " (Limited Time)\n\nHi [Name],\n\nI hope this email finds you well. I'm reaching out because I believe you'd be interested in the latest developments around " ++ prompt
    ++ ".\n\n**Here's what's happening:**\n\nThe industry is rapidly evolving, and those who adapt quickly are seeing remarkable results. Companies implementing " ++ prompt
    ++ " strategies are reporting:\n\n✅ Increased efficiency by 40%\n✅ Higher customer satisfaction scores\n✅ Significant competitive advantages\n\n**But here's the challenge...**\n\nMost organizations are still struggling with outdated approaches. They're missing out on incredible opportunities because they haven't embraced " ++ prompt
    ++ ".\n\n**The good news?**\n\nYou don't have to be one of them. We've developed a proven framework that makes " ++ prompt
    ++ " implementation straightforward and effective.\n\n**What makes this different:**\n• Step-by-step guidance\n• Proven results\n• Ongoing support\n• Risk-free guarantee\n\n**Ready to learn more?**\n\nI'd love to show you exactly how this works. Would you be available for a brief 15-minute call this week?\n\nSimply reply to this email with your preferred time, and I'll send over a calendar link.\n\nBest regards,\n[Your Name]\n\nP.S. This opportunity won't be available forever. The companies that act now will have a significant head start over their competition.\n\n---\n*Crafted with AI Content Creator Pro*"

/-- The method generateEmailTemplate(prompt, language, tone). -/
def generateEmailTemplate (prompt language tone : String) : String :=
  langNote language ++ toneNote tone ++ emailBody prompt

/-- The method generateFallbackContent(prompt, contentType, language, tone):
dispatch on the content type with the || fallback to the document template. -/
def generateFallbackContent (prompt contentType language tone : String) : String :=
  if contentType == "presentation" then generatePresentationTemplate prompt language tone
  else if contentType == "document" then generateDocumentTemplate prompt language tone
  else if contentType == "social" then generateSocialTemplate prompt language tone
  else if contentType == "blog" then generateBlogTemplate prompt language tone
  else if contentType == "email" then generateEmailTemplate prompt language tone
  else generateDocumentTemplate prompt language tone

/-! The orchestrator generateContent.  Its observable behaviour on one call:
the returned string, the cache state after the call, and the names of the
providers attempted (for call-count instrumentation). -/

/-- Result of one generateContent call: returned string, cache afterwards,
names of the providers attempted in order. -/
structure GenResult where
  result : String
  cache : Cache
  calls : List String
deriving Repr

/-- The cache-miss path of generateContent (everything after the early
cache-hit return): resolve the template, build the prompt, run the provider
loop, cache and return the first truthy provider result, else cache and
return the fallback content. -/
def generateMiss (call : Provider → String → CallOutcome)
    (providerList : List Provider) (c : Cache) (now : Nat)
    (prompt contentType language tone cacheKey : String) : GenResult :=
  let template := templateFor contentType
  let fullPrompt := buildPrompt prompt template language tone
  let tried := tryProviders (fun p => call p fullPrompt) providerList
  match tried.1 with
  | some result => ⟨result, cacheSet c cacheKey result now, tried.2⟩
  | none =>
    let fallbackResult := generateFallbackContent prompt contentType language tone
    ⟨fallbackResult, cacheSet c cacheKey fallbackResult now, tried.2⟩

/-- The method generateContent: compute the cache key, return a truthy cached
value immediately (no provider attempted), else run the miss path.  The
provider list and the network behaviour (call) are the explicit state the
service holds; language and tone default as in the destructured parameters. -/
def generateContent (call : Provider → String → CallOutcome)
    (providerList : List Provider) (c : Cache) (now : Nat)
    (prompt contentType : String)
    (language : String := "english") (tone : String := "professional") : GenResult :=
  let cacheKey := cacheKeyOf prompt contentType language tone
  match cacheGet c cacheKey now with
  | some cached =>
    if cached == "" then
      generateMiss call providerList c now prompt contentType language tone cacheKey
    else ⟨cached, c, []⟩
  | none => generateMiss call providerList c now prompt contentType language tone cacheKey

/-! Enum values accepted by the HTTP validation layer in front of the core. -/

def contentTypeValues : List String :=
  ["presentation", "document", "social", "blog", "email"]

def languageValues : List String :=
  ["english", "spanish", "french", "german", "chinese", "japanese", "portuguese"]

def toneValues : List String :=
  ["professional", "casual", "creative", "persuasive", "informative", "humorous"]

/-! The provider client: parseResponse over a model of JSON response bodies,
and callProvider wrapping the network call.  A JS undefined produced by a
missing property is modelled as Option.none; JsonVal.null models JSON null. -/

/-- A JSON value as delivered by the HTTP client as response.data. -/
inductive JsonVal where
  | null : JsonVal
  | str : String → JsonVal
  | num : Int → JsonVal
  | bool : Bool → JsonVal
  | arr : List JsonVal → JsonVal
  | obj : List (String × JsonVal) → JsonVal

/-- JS truthiness of a defined value. -/
def jsTruthy : JsonVal → Bool
  | .null => false
  | .str s => !(s == "")
  | .num n => !(n == 0)
  | .bool b => b
  | .arr _ => true
  | .obj _ => true

/-- JS truthiness of a possibly-undefined value. -/
def jsTruthyOpt : Option JsonVal → Bool
  | none => false
  | some v => jsTruthy v

/-- JS property access data.f: throws a TypeError on null, yields the field
of an object (undefined when absent), undefined on any other value. -/
def getField : JsonVal → String → Except String (Option JsonVal)
  | .null, _ => .error "TypeError: cannot read properties of null"
  | .obj fs, f => .ok (fs.lookup f)
  | _, _ => .ok none

/-- The huggingface arm of the switch in parseResponse:
Array.isArray(data) ? data[0]?.generated_text : data.generated_text.
The optional chain never throws; the plain access throws on null. -/
def parseHuggingface (data : JsonVal) : Except String (Option JsonVal) :=
  match data with
  | .arr xs =>
    match xs.head? with
    | none => .ok none
    | some .null => .ok none
    | some v => getField v "generated_text"
  | d => getField d "generated_text"

/-- The ollama-proxy / local-llm arm: data.response || data.text, with JS
short-circuit evaluation of ||. -/
def parseResponseText (data : JsonVal) : Except String (Option JsonVal) :=
  match getField data "response" with
  | .error e => .error e
  | .ok r => if jsTruthyOpt r then .ok r else getField data "text"

/-- The default arm: data.content || data.text || JSON.stringify(data).
The stringify result is modelled abstractly by the str constructor applied
to a rendering of the value; only its position in the || chain matters. -/
def parseDefault (stringify : JsonVal → String) (data : JsonVal) :
    Except String (Option JsonVal) :=
  match getField data "content" with
  | .error e => .error e
  | .ok c =>
    if jsTruthyOpt c then .ok c
    else
      match getField data "text" with
      | .error e => .error e
      | .ok t => if jsTruthyOpt t then .ok t else .ok (some (.str (stringify data)))

/-- The switch body of parseResponse, before the enclosing try/catch. -/
def parseResponseBody (stringify : JsonVal → String) (data : JsonVal)
    (providerName : String) : Except String (Option JsonVal) :=
  if providerName == "huggingface" then parseHuggingface data
  else if providerName == "ollama-proxy" then parseResponseText data
  else if providerName == "local-llm" then parseResponseText data
  else parseDefault stringify data

/-- The method parseResponse(data, providerName): the switch wrapped in a
try/catch that converts any thrown error into the named parse failure. -/
def parseResponse (stringify : JsonVal → String) (data : JsonVal)
    (providerName : String) : Except String (Option JsonVal) :=
  match parseResponseBody stringify data providerName with
  | .error _ => .error ("Failed to parse response from " ++ providerName)
  | .ok v => .ok v

/-- The method callProvider(provider, prompt): an unknown provider name
throws before any request; otherwise the network call (modelled by the net
oracle: response body or thrown transport error) is made and its body is
parsed; every failure is rethrown as the named API-call error.  The
provider-specific request bodies carry no information the model needs beyond
the provider identity already passed to net. -/
def callProvider (stringify : JsonVal → String)
    (net : Provider → Except String JsonVal) (provider : Provider) :
    Except String (Option JsonVal) :=
  if provider.name == "huggingface" ∨ provider.name == "ollama-proxy"
      ∨ provider.name == "local-llm" then
    match net provider with
    | .error msg => .error (provider.name ++ " API call failed: " ++ msg)
    | .ok data =>
      match parseResponse stringify data provider.name with
      | .error msg => .error (provider.name ++ " API call failed: " ++ msg)
      | .ok v => .ok v
  else
    .error (provider.name ++ " API call failed: Unknown provider: " ++ provider.name)

/-- Specification form of the provider loop, written from the words of the
orchestrator contract (iterate enabled providers in fixed declared order,
short-circuit on the first success): the attempted providers are the longest
all-failing front of the enabled sublist plus, when one exists, the first
succeeding provider, whose value is the result.  Compared against the
embedded loop tryProviders by the order/short-circuit theorem. -/
def tryProvidersSpec (call : Provider → CallOutcome) (ps : List Provider) :
    Option String × List String :=
  let es := ps.filter (fun p => p.enabled)
  let failures := es.takeWhile (fun p => !isSuccess (call p))
  match es.dropWhile (fun p => !isSuccess (call p)) with
  | [] => (none, failures.map (fun p => p.name))
  | p :: _ => (exVal (call p), failures.map (fun p => p.name) ++ [p.name])

/-- Split a character list at every dash, used to read the four fields back
out of a cache key. -/
def splitDash : List Char → List (List Char)
  | [] => [[]]
  | c :: cs =>
    if c = '-' then [] :: splitDash cs
    else
      match splitDash cs with
      | [] => [[c]]
      | f :: r => (c :: f) :: r

/-! Helper lemmas. -/

theorem tryProviders_cons_disabled (call : Provider → CallOutcome)
    (p : Provider) (ps : List Provider) (hp : ¬ p.enabled = true) :
    tryProviders call (p :: ps) = tryProviders call ps := by
  simp [tryProviders, hp]

theorem tryProviders_cons_fail (call : Provider → CallOutcome)
    (p : Provider) (ps : List Provider) (hp : p.enabled = true)
    (hs : isSuccess (call p) = false) :
    tryProviders call (p :: ps)
      = ((tryProviders call ps).1, p.name :: (tryProviders call ps).2) := by
  cases hc : call p with
  | error e => simp [tryProviders, hp, hc]
  | ok v =>
    cases v with
    | none => simp [tryProviders, hp, hc]
    | some s =>
      have hse : (s == "") = true := by
        by_contra h
        simp [isSuccess, hc, Bool.not_eq_true] at hs h
        exact h hs
      simp [tryProviders, hp, hc, hse]

theorem tryProviders_cons_success (call : Provider → CallOutcome)
    (p : Provider) (ps : List Provider) (hp : p.enabled = true)
    (hs : isSuccess (call p) = true) :
    tryProviders call (p :: ps) = (exVal (call p), [p.name]) := by
  cases hc : call p with
  | error e => simp [isSuccess, hc] at hs
  | ok v =>
    cases v with
    | none => simp [isSuccess, hc] at hs
    | some s =>
      have hse : (s == "") = false := by
        simpa [isSuccess, hc] using hs
      simp [tryProviders, hp, hc, hse, exVal]

theorem tryProvidersSpec_cons_disabled (call : Provider → CallOutcome)
    (p : Provider) (ps : List Provider) (hp : ¬ p.enabled = true) :
    tryProvidersSpec call (p :: ps) = tryProvidersSpec call ps := by
  simp [tryProvidersSpec, List.filter_cons, hp]

theorem tryProvidersSpec_cons_fail (call : Provider → CallOutcome)
    (p : Provider) (ps : List Provider) (hp : p.enabled = true)
    (hs : isSuccess (call p) = false) :
    tryProvidersSpec call (p :: ps)
      = ((tryProvidersSpec call ps).1, p.name :: (tryProvidersSpec call ps).2) := by
  simp only [tryProvidersSpec, List.filter_cons, hp, if_true]
  rw [List.takeWhile_cons, List.dropWhile_cons]
  simp only [hs, Bool.not_false, if_true]
  cases hd : List.dropWhile (fun q => !isSuccess (call q))
      (List.filter (fun q => q.enabled) ps) with
  | nil => simp
  | cons q qs => simp

theorem tryProvidersSpec_cons_success (call : Provider → CallOutcome)
    (p : Provider) (ps : List Provider) (hp : p.enabled = true)
    (hs : isSuccess (call p) = true) :
    tryProvidersSpec call (p :: ps) = (exVal (call p), [p.name]) := by
  simp only [tryProvidersSpec, List.filter_cons, hp, if_true]
  rw [List.takeWhile_cons, List.dropWhile_cons]
  simp [hs]

theorem tryProviders_eq_spec (call : Provider → CallOutcome) :
    ∀ ps : List Provider, tryProviders call ps = tryProvidersSpec call ps := by
  intro ps
  induction ps with
  | nil => rfl
  | cons p ps ih =>
    by_cases hp : p.enabled = true
    · by_cases hs : isSuccess (call p) = true
      · rw [tryProviders_cons_success call p ps hp hs,
          tryProvidersSpec_cons_success call p ps hp hs]
      · have hs' : isSuccess (call p) = false := by simpa using hs
        rw [tryProviders_cons_fail call p ps hp hs',
          tryProvidersSpec_cons_fail call p ps hp hs', ih]
    · rw [tryProviders_cons_disabled call p ps hp,
        tryProvidersSpec_cons_disabled call p ps hp, ih]

theorem tryProviders_none (call : Provider → CallOutcome) :
    ∀ ps : List Provider, (∀ p ∈ ps, p.enabled = true → isSuccess (call p) = false) →
      tryProviders call ps
        = (none, (ps.filter (fun p => p.enabled)).map (fun p => p.name)) := by
  intro ps
  induction ps with
  | nil => intro _; rfl
  | cons p ps ih =>
    intro h
    by_cases hp : p.enabled = true
    · have hs : isSuccess (call p) = false := h p (List.mem_cons_self p ps) hp
      rw [tryProviders_cons_fail call p ps hp hs,
        ih (fun q hq hqe => h q (List.mem_cons_of_mem p hq) hqe)]
      simp [List.filter_cons, hp]
    · rw [tryProviders_cons_disabled call p ps hp,
        ih (fun q hq hqe => h q (List.mem_cons_of_mem p hq) hqe)]
      simp [List.filter_cons, hp]

theorem tryProviders_some_ne_empty (call : Provider → CallOutcome) :
    ∀ ps : List Provider, ∀ v : String,
      (tryProviders call ps).1 = some v → v ≠ "" := by
  intro ps
  induction ps with
  | nil => intro v h; simp [tryProviders] at h
  | cons p ps ih =>
    intro v h
    by_cases hp : p.enabled = true
    · by_cases hs : isSuccess (call p) = true
      · rw [tryProviders_cons_success call p ps hp hs] at h
        cases hc : call p with
        | error e => simp [isSuccess, hc] at hs
        | ok w =>
          cases w with
          | none => simp [isSuccess, hc] at hs
          | some s =>
            have hse : (s == "") = false := by simpa [isSuccess, hc] using hs
            have hsv : s = v := by simpa [exVal, hc] using h
            rw [← hsv]
            exact beq_eq_false_iff_ne.mp hse
      · have hs' : isSuccess (call p) = false := by simpa using hs
        rw [tryProviders_cons_fail call p ps hp hs'] at h
        exact ih v h
    · rw [tryProviders_cons_disabled call p ps hp] at h
      exact ih v h

theorem presentationBody_shape (p : String) :
    ∃ rest, presentationBody p = "# " ++ rest :=
  ⟨_, by simp only [presentationBody, String.append_assoc]; rfl⟩

theorem documentBody_shape (p : String) :
    ∃ rest, documentBody p = "# " ++ rest :=
  ⟨_, by simp only [documentBody, String.append_assoc]; rfl⟩

theorem socialBody_shape (p : String) :
    ∃ rest, socialBody p = "🚀 Ready to transform your approach to " ++ rest :=
  ⟨_, by simp only [socialBody, String.append_assoc]; rfl⟩

theorem blogBody_shape (p : String) :
    ∃ rest, blogBody p = "# The Ultimate Guide to " ++ rest :=
  ⟨_, by simp only [blogBody, String.append_assoc]; rfl⟩

theorem emailBody_shape (p : String) :
    ∃ rest, emailBody p = "Subject: 🚀 Transform Your Approach to " ++ rest :=
  ⟨_, by simp only [emailBody, String.append_assoc]; rfl⟩

theorem data_head_of_append (lit rest : String) (c : Char) (cs : List Char)
    (h : lit.data = c :: cs) : ∃ ds, (lit ++ rest).data = c :: ds :=
  ⟨cs ++ rest.data, by rw [String.data_append, h]; rfl⟩

theorem generateFallbackContent_decomp (p ct l t : String) :
    ∃ body c, generateFallbackContent p ct l t = langNote l ++ (toneNote t ++ body)
      ∧ (∃ cs, body.data = c :: cs) ∧ c ≠ '[' := by
  rw [generateFallbackContent]
  split_ifs with h1 h2 h3 h4 h5
  · obtain ⟨rest, hr⟩ := presentationBody_shape p
    refine ⟨presentationBody p, '#', ?_, ?_, by decide⟩
    · simp [generatePresentationTemplate, String.append_assoc]
    · rw [hr]; exact data_head_of_append _ rest '#' [' '] rfl
  · obtain ⟨rest, hr⟩ := documentBody_shape p
    refine ⟨documentBody p, '#', ?_, ?_, by decide⟩
    · simp [generateDocumentTemplate, String.append_assoc]
    · rw [hr]; exact data_head_of_append _ rest '#' [' '] rfl
  · obtain ⟨rest, hr⟩ := socialBody_shape p
    refine ⟨socialBody p, '🚀', ?_, ?_, by decide⟩
    · simp [generateSocialTemplate, String.append_assoc]
    · rw [hr]; exact data_head_of_append _ rest '🚀' _ rfl
  · obtain ⟨rest, hr⟩ := blogBody_shape p
    refine ⟨blogBody p, '#', ?_, ?_, by decide⟩
    · simp [generateBlogTemplate, String.append_assoc]
    · rw [hr]; exact data_head_of_append _ rest '#' _ rfl
  · obtain ⟨rest, hr⟩ := emailBody_shape p
    refine ⟨emailBody p, 'S', ?_, ?_, by decide⟩
    · simp [generateEmailTemplate, String.append_assoc]
    · rw [hr]; exact data_head_of_append _ rest 'S' _ rfl
  · obtain ⟨rest, hr⟩ := documentBody_shape p
    refine ⟨documentBody p, '#', ?_, ?_, by decide⟩
    · simp [generateDocumentTemplate, String.append_assoc]
    · rw [hr]; exact data_head_of_append _ rest '#' [' '] rfl

theorem generateFallbackContent_ne_empty (p ct l t : String) :
    generateFallbackContent p ct l t ≠ "" := by
  obtain ⟨body, c, heq, ⟨cs, hdata⟩, _⟩ := generateFallbackContent_decomp p ct l t
  intro he
  have hd : (generateFallbackContent p ct l t).data = [] := by rw [he]
  rw [heq] at hd
  simp [String.data_append, hdata] at hd

theorem cacheSet_filter_self (c : Cache) (k v : String) (now : Nat) :
    (cacheSet c k v now).filter (fun e => e.key == k) = [⟨k, v, now⟩] := by
  have hall : ∀ a : CacheEntry, ((a.key == k) && !(a.key == k)) = false := by
    intro a; cases h : a.key == k <;> simp [h]
  simp [cacheSet, List.filter_cons, List.filter_filter, hall]

theorem cacheSet_filter_other (c : Cache) (k v : String) (now : Nat)
    (k₂ : String) (hne : k₂ ≠ k) :
    (cacheSet c k v now).filter (fun e => e.key == k₂)
      = c.filter (fun e => e.key == k₂) := by
  have hk : (k == k₂) = false := beq_eq_false_iff_ne.mpr (fun h => hne h.symm)
  have hall : ∀ a : CacheEntry, a ∈ c →
      ((a.key == k₂) && !(a.key == k)) = (a.key == k₂) := by
    intro a _
    cases h2 : a.key == k₂ with
    | false => simp
    | true =>
      have : a.key = k₂ := by simpa using h2
      have : (a.key == k) = false := by
        rw [this]; exact beq_eq_false_iff_ne.mpr hne
      simp [this]
  simp only [cacheSet, List.filter_cons, hk, List.filter_filter]
  rw [List.filter_congr hall]
  simp

theorem cacheGet_cacheSet_self (c : Cache) (k v : String) (now₁ now₂ : Nat)
    (h : now₂ < now₁ + cacheTTL) :
    cacheGet (cacheSet c k v now₁) k now₂ = some v := by
  simp [cacheGet, cacheSet, List.find?_cons, h]

theorem generateContent_hit (call : Provider → String → CallOutcome)
    (ps : List Provider) (c : Cache) (now : Nat) (p ct l t v : String)
    (h : cacheGet c (cacheKeyOf p ct l t) now = some v) (hv : v ≠ "") :
    generateContent call ps c now p ct l t = ⟨v, c, []⟩ := by
  have hb : (v == "") = false := beq_eq_false_iff_ne.mpr hv
  simp [generateContent, h, hb]

theorem generateContent_miss (call : Provider → String → CallOutcome)
    (ps : List Provider) (c : Cache) (now : Nat) (p ct l t : String)
    (h : cacheGet c (cacheKeyOf p ct l t) now = none) :
    generateContent call ps c now p ct l t
      = generateMiss call ps c now p ct l t (cacheKeyOf p ct l t) := by
  simp [generateContent, h]

theorem generateMiss_of_some (call : Provider → String → CallOutcome)
    (ps : List Provider) (c : Cache) (now : Nat) (p ct l t key v : String)
    (hv : (tryProviders (fun q => call q (buildPrompt p (templateFor ct) l t)) ps).1
      = some v) :
    generateMiss call ps c now p ct l t key
      = ⟨v, cacheSet c key v now,
          (tryProviders (fun q => call q (buildPrompt p (templateFor ct) l t)) ps).2⟩ := by
  simp [generateMiss, hv]

theorem generateMiss_of_none (call : Provider → String → CallOutcome)
    (ps : List Provider) (c : Cache) (now : Nat) (p ct l t key : String)
    (hv : (tryProviders (fun q => call q (buildPrompt p (templateFor ct) l t)) ps).1
      = none) :
    generateMiss call ps c now p ct l t key
      = ⟨generateFallbackContent p ct l t,
          cacheSet c key (generateFallbackContent p ct l t) now,
          (tryProviders (fun q => call q (buildPrompt p (templateFor ct) l t)) ps).2⟩ := by
  simp [generateMiss, hv]

theorem generateMiss_result_ne_empty (call : Provider → String → CallOutcome)
    (ps : List Provider) (c : Cache) (now : Nat) (p ct l t key : String) :
    (generateMiss call ps c now p ct l t key).result ≠ "" := by
  cases hv : (tryProviders (fun q => call q (buildPrompt p (templateFor ct) l t)) ps).1 with
  | none =>
    rw [generateMiss_of_none call ps c now p ct l t key hv]
    exact generateFallbackContent_ne_empty p ct l t
  | some v =>
    rw [generateMiss_of_some call ps c now p ct l t key v hv]
    exact tryProviders_some_ne_empty _ ps v hv

theorem generateContent_vals (call : Provider → String → CallOutcome)
    (ps : List Provider) (c : Cache) (now : Nat) (p ct l t : String)
    (hc : ∀ e ∈ c, e.val ≠ "") :
    (generateContent call ps c now p ct l t).result ≠ ""
      ∧ ∀ e ∈ (generateContent call ps c now p ct l t).cache, e.val ≠ "" := by
  have hmiss : ∀ key,
      (generateMiss call ps c now p ct l t key).result ≠ ""
        ∧ ∀ e ∈ (generateMiss call ps c now p ct l t key).cache, e.val ≠ "" := by
    intro key
    refine ⟨generateMiss_result_ne_empty call ps c now p ct l t key, ?_⟩
    cases hv : (tryProviders (fun q => call q (buildPrompt p (templateFor ct) l t)) ps).1 with
    | none =>
      rw [generateMiss_of_none call ps c now p ct l t key hv]
      intro e he
      rcases List.mem_cons.mp he with h | h
      · rw [h]; exact generateFallbackContent_ne_empty p ct l t
      · exact hc e (List.mem_of_mem_filter h)
    | some v =>
      rw [generateMiss_of_some call ps c now p ct l t key v hv]
      intro e he
      rcases List.mem_cons.mp he with h | h
      · rw [h]; exact tryProviders_some_ne_empty _ ps v hv
      · exact hc e (List.mem_of_mem_filter h)
  cases hg : cacheGet c (cacheKeyOf p ct l t) now with
  | none =>
    rw [generateContent_miss call ps c now p ct l t hg]
    exact hmiss _
  | some v =>
    by_cases hv : v = ""
    · have hb : (v == "") = true := by simp [hv]
      have : generateContent call ps c now p ct l t
          = generateMiss call ps c now p ct l t (cacheKeyOf p ct l t) := by
        simp [generateContent, hg, hb]
      rw [this]
      exact hmiss _
    · rw [generateContent_hit call ps c now p ct l t v hg hv]
      exact ⟨hv, hc⟩

theorem splitDash_append (a : List Char) (rest : List Char) (ha : '-' ∉ a) :
    splitDash (a ++ '-' :: rest) = a :: splitDash rest := by
  induction a with
  | nil => simp [splitDash]
  | cons c a ih =>
    have hc : ¬ c = '-' := fun h => ha (by rw [h]; exact List.mem_cons_self '-' a)
    have ha' : '-' ∉ a := fun h => ha (List.mem_cons_of_mem c h)
    simp only [List.cons_append, splitDash, if_neg hc, List.append_eq]
    rw [ih ha']

theorem cacheKeyOf_data (p ct l t : String) :
    (cacheKeyOf p ct l t).data
      = ct.data ++ '-' :: (l.data ++ '-' :: (t.data ++ '-' :: (hashString p).data)) := by
  have hdash : "-".data = ['-'] := rfl
  simp [cacheKeyOf, String.data_append, hdash, List.append_assoc]

theorem splitDash_cacheKey (p ct l t : String)
    (hct : '-' ∉ ct.data) (hl : '-' ∉ l.data) (ht : '-' ∉ t.data) :
    splitDash (cacheKeyOf p ct l t).data
      = ct.data :: l.data :: t.data :: splitDash (hashString p).data := by
  rw [cacheKeyOf_data, splitDash_append _ _ hct, splitDash_append _ _ hl,
    splitDash_append _ _ ht]

theorem cacheKeyOf_inj (p₁ p₂ ct₁ ct₂ l₁ l₂ t₁ t₂ : String)
    (h1 : '-' ∉ ct₁.data) (h2 : '-' ∉ ct₂.data)
    (h3 : '-' ∉ l₁.data) (h4 : '-' ∉ l₂.data)
    (h5 : '-' ∉ t₁.data) (h6 : '-' ∉ t₂.data)
    (hne : ¬ (ct₁ = ct₂ ∧ l₁ = l₂ ∧ t₁ = t₂)) :
    cacheKeyOf p₁ ct₁ l₁ t₁ ≠ cacheKeyOf p₂ ct₂ l₂ t₂ := by
  intro heq
  have hdata : (cacheKeyOf p₁ ct₁ l₁ t₁).data = (cacheKeyOf p₂ ct₂ l₂ t₂).data := by
    rw [heq]
  have hsplit := congrArg splitDash hdata
  rw [splitDash_cacheKey p₁ ct₁ l₁ t₁ h1 h3 h5,
    splitDash_cacheKey p₂ ct₂ l₂ t₂ h2 h4 h6] at hsplit
  injection hsplit with hct hrest
  injection hrest with hl hrest2
  injection hrest2 with ht _
  exact hne ⟨String.ext hct, String.ext hl, String.ext ht⟩

theorem enum_values_dash_free :
    (∀ s ∈ contentTypeValues, '-' ∉ s.data)
      ∧ (∀ s ∈ languageValues, '-' ∉ s.data)
      ∧ (∀ s ∈ toneValues, '-' ∉ s.data) := by
  decide

theorem toInt32_range (x : Int) :
    -2147483648 ≤ toInt32 x ∧ toInt32 x < 2147483648 := by
  simp only [toInt32]
  have h1 : 0 ≤ x % 4294967296 := Int.emod_nonneg x (by norm_num)
  have h2 : x % 4294967296 < 4294967296 := Int.emod_lt_of_pos x (by norm_num)
  split_ifs with h <;> omega

theorem hashVal_range (s : String) :
    -2147483648 ≤ hashVal s ∧ hashVal s < 2147483648 := by
  rw [hashVal]
  have key : ∀ (l : List Char) (a : Int),
      -2147483648 ≤ a → a < 2147483648 →
      -2147483648 ≤ l.foldl hashStep a ∧ l.foldl hashStep a < 2147483648 := by
    intro l
    induction l with
    | nil => intro a ha1 ha2; exact ⟨ha1, ha2⟩
    | cons c l ih =>
      intro a _ _
      rw [List.foldl_cons]
      have hr := toInt32_range (toInt32 (a * 32) - a + c.toNat)
      exact ih (hashStep a c) hr.1 hr.2
  exact key s.data 0 (by norm_num) (by norm_num)

theorem buildPrompt_topic (p : String) (tmpl : ContentTemplate) (l t : String) :
    ∃ a b, buildPrompt p tmpl l t = a ++ (p ++ b) :=
  ⟨tmpl.systemPrompt ++ "\n\n" ++ languageInstructionFor l ++ "\n"
      ++ toneInstructionFor t ++ "\n\nTopic: ", _,
    by simp only [buildPrompt, String.append_assoc]; rfl⟩

theorem buildPrompt_sections (p : String) (tmpl : ContentTemplate) (l t : String) :
    ∃ a b, buildPrompt p tmpl l t
      = a ++ (String.intercalate " → " tmpl.sections ++ b) :=
  ⟨tmpl.systemPrompt ++ "\n\n" ++ languageInstructionFor l ++ "\n"
      ++ toneInstructionFor t ++ "\n\nTopic: " ++ p
      ++ "\n\nPlease create high-quality content following this structure: ", _,
    by simp only [buildPrompt, String.append_assoc]; rfl⟩

theorem cacheCount_cacheSet_le_one (c : Cache) (k v : String) (now : Nat)
    (hwf : ∀ k₂, cacheCount c k₂ ≤ 1) (k₂ : String) :
    cacheCount (cacheSet c k v now) k₂ ≤ 1 := by
  by_cases hk : k₂ = k
  · rw [hk]
    simp [cacheCount, cacheSet_filter_self]
  · rw [cacheCount, cacheSet_filter_other c k v now k₂ hk]
    exact hwf k₂

theorem generateContent_cache_shape (call : Provider → String → CallOutcome)
    (ps : List Provider) (c : Cache) (now : Nat) (p ct l t : String) :
    (generateContent call ps c now p ct l t).cache = c
    ∨ ∃ r, (generateContent call ps c now p ct l t).cache
        = cacheSet c (cacheKeyOf p ct l t) r now := by
  have hmiss : ∀ key, (generateMiss call ps c now p ct l t key).cache
      = cacheSet c key (generateMiss call ps c now p ct l t key).result now := by
    intro key
    cases htr : (tryProviders (fun q => call q (buildPrompt p (templateFor ct) l t)) ps).1 with
    | some w => rw [generateMiss_of_some call ps c now p ct l t key w htr]
    | none => rw [generateMiss_of_none call ps c now p ct l t key htr]
  cases hg : cacheGet c (cacheKeyOf p ct l t) now with
  | some v =>
    by_cases hv : v = ""
    · right
      have hb : (v == "") = true := by simp [hv]
      have hx : generateContent call ps c now p ct l t
          = generateMiss call ps c now p ct l t (cacheKeyOf p ct l t) := by
        simp [generateContent, hg, hb]
      rw [hx]
      exact ⟨_, hmiss _⟩
    · left
      rw [generateContent_hit call ps c now p ct l t v hg hv]
  | none =>
    right
    rw [generateContent_miss call ps c now p ct l t hg]
    exact ⟨_, hmiss _⟩

/-! Claim theorems. -/

/-- C1: for every request and every network behaviour, generateContent is
total and returns a content string through one of exactly three paths — a
truthy cache hit returned unchanged with no provider attempted, a truthy
provider result, or the fallback content; no provider error escapes (the
result type carries no error case and every thrown provider error is caught
inside the loop). -/
theorem generateContent_total_paths (call : Provider → String → CallOutcome)
    (ps : List Provider) (c : Cache) (now : Nat) (p ct l t : String) :
    (∃ v, cacheGet c (cacheKeyOf p ct l t) now = some v ∧ v ≠ ""
        ∧ generateContent call ps c now p ct l t = ⟨v, c, []⟩)
    ∨ (∃ v, (tryProviders (fun q => call q (buildPrompt p (templateFor ct) l t)) ps).1
          = some v
        ∧ (generateContent call ps c now p ct l t).result = v)
    ∨ (generateContent call ps c now p ct l t).result
        = generateFallbackContent p ct l t := by
  have hmiss : ∀ hx : generateContent call ps c now p ct l t
      = generateMiss call ps c now p ct l t (cacheKeyOf p ct l t),
      (∃ v, (tryProviders (fun q => call q (buildPrompt p (templateFor ct) l t)) ps).1
          = some v
        ∧ (generateContent call ps c now p ct l t).result = v)
      ∨ (generateContent call ps c now p ct l t).result
          = generateFallbackContent p ct l t := by
    intro hx
    cases htr : (tryProviders (fun q => call q (buildPrompt p (templateFor ct) l t)) ps).1 with
    | some w =>
      left
      exact ⟨w, rfl, by
        rw [hx, generateMiss_of_some call ps c now p ct l t _ w htr]⟩
    | none =>
      right
      rw [hx, generateMiss_of_none call ps c now p ct l t _ htr]
  cases hg : cacheGet c (cacheKeyOf p ct l t) now with
  | some v =>
    by_cases hv : v = ""
    · have hb : (v == "") = true := by simp [hv]
      exact Or.inr (hmiss (by simp [generateContent, hg, hb]))
    · exact Or.inl ⟨v, rfl, hv, generateContent_hit call ps c now p ct l t v hg hv⟩
  | none =>
    exact Or.inr (hmiss (generateContent_miss call ps c now p ct l t hg))

/-- C2: a request whose fingerprint holds an unexpired (and, as for every
entry the service writes, non-empty) cache entry returns exactly the cached
string with zero provider calls; and a second call with identical topic,
contentType, language and tone issued less than the TTL after a first
(missing) call returns the first call's string, attempts no provider, and
leaves the cache unchanged. -/
theorem cache_hit_returns_cached (call₁ call₂ : Provider → String → CallOutcome)
    (ps : List Provider) (c : Cache) (now now₁ now₂ : Nat) (p ct l t v : String) :
    (cacheGet c (cacheKeyOf p ct l t) now = some v → v ≠ "" →
      generateContent call₁ ps c now p ct l t = ⟨v, c, []⟩)
    ∧ (cacheGet c (cacheKeyOf p ct l t) now₁ = none → now₂ < now₁ + cacheTTL →
      generateContent call₂ ps (generateContent call₁ ps c now₁ p ct l t).cache
          now₂ p ct l t
        = ⟨(generateContent call₁ ps c now₁ p ct l t).result,
           (generateContent call₁ ps c now₁ p ct l t).cache, []⟩) := by
  constructor
  · intro h hv
    exact generateContent_hit call₁ ps c now p ct l t v h hv
  · intro hm httl
    have hx := generateContent_miss call₁ ps c now₁ p ct l t hm
    have hres : (generateContent call₁ ps c now₁ p ct l t).result ≠ "" := by
      rw [hx]
      exact generateMiss_result_ne_empty call₁ ps c now₁ p ct l t _
    have hcache : (generateContent call₁ ps c now₁ p ct l t).cache
        = cacheSet c (cacheKeyOf p ct l t)
            (generateContent call₁ ps c now₁ p ct l t).result now₁ := by
      rw [hx]
      cases htr : (tryProviders (fun q => call₁ q (buildPrompt p (templateFor ct) l t)) ps).1 with
      | some w => rw [generateMiss_of_some call₁ ps c now₁ p ct l t _ w htr]
      | none => rw [generateMiss_of_none call₁ ps c now₁ p ct l t _ htr]
    have hget : cacheGet (generateContent call₁ ps c now₁ p ct l t).cache
        (cacheKeyOf p ct l t) now₂
        = some (generateContent call₁ ps c now₁ p ct l t).result := by
      rw [hcache]
      exact cacheGet_cacheSet_self c (cacheKeyOf p ct l t) _ now₁ now₂ httl
    exact generateContent_hit call₂ ps _ now₂ p ct l t _ hget hres

/-- C2 witness: with a concrete one-entry cache holding the fingerprint of
the request, the call returns the cached string with no provider attempted. -/
theorem cache_hit_returns_cached_witness :
    generateContent (fun _ _ => Except.error "down") providers
        [⟨cacheKeyOf "solar" "blog" "english" "professional", "cached content", 0⟩]
        10 "solar" "blog" "english" "professional"
      = ⟨"cached content",
         [⟨cacheKeyOf "solar" "blog" "english" "professional", "cached content", 0⟩],
         []⟩ :=
  (cache_hit_returns_cached (fun _ _ => Except.error "down")
      (fun _ _ => Except.error "down") providers
      [⟨cacheKeyOf "solar" "blog" "english" "professional", "cached content", 0⟩]
      10 0 0 "solar" "blog" "english" "professional" "cached content").1
    (by simp [cacheGet, cacheTTL]) (by decide)

/-- C3: on a cache miss the provider loop equals its specification — it
visits exactly the enabled providers in declared order, stopping at the
first success — and a first truthy provider value is cached under the
fingerprint and returned immediately with exactly the providers attempted so
far recorded. -/
theorem providers_tried_in_declared_order (call : Provider → String → CallOutcome)
    (ps : List Provider) (c : Cache) (now : Nat) (p ct l t : String)
    (hmiss : cacheGet c (cacheKeyOf p ct l t) now = none) :
    (∀ (pc : Provider → CallOutcome) (qs : List Provider),
        tryProviders pc qs = tryProvidersSpec pc qs)
    ∧ (∀ v,
        (tryProviders (fun q => call q (buildPrompt p (templateFor ct) l t)) ps).1
          = some v →
        generateContent call ps c now p ct l t
          = ⟨v, cacheSet c (cacheKeyOf p ct l t) v now,
              (tryProviders (fun q => call q (buildPrompt p (templateFor ct) l t)) ps).2⟩) := by
  constructor
  · exact fun pc qs => tryProviders_eq_spec pc qs
  · intro v hv
    rw [generateContent_miss call ps c now p ct l t hmiss,
      generateMiss_of_some call ps c now p ct l t _ v hv]

/-- C3 witness: with the declared provider list, a network on which the
first enabled provider succeeds yields that value, caches it, and attempts
only huggingface — the disabled local-llm is never attempted. -/
theorem providers_tried_in_declared_order_witness :
    generateContent (fun _ _ => Except.ok (some "from hf")) providers [] 0
        "wind" "social" "english" "professional"
      = ⟨"from hf",
         cacheSet [] (cacheKeyOf "wind" "social" "english" "professional") "from hf" 0,
         ["huggingface"]⟩ :=
  (providers_tried_in_declared_order (fun _ _ => Except.ok (some "from hf"))
      providers [] 0 "wind" "social" "english" "professional" rfl).2
    "from hf" (by rfl)

/-- C4: when the cache misses and every enabled provider fails (which is
vacuously the case when none is enabled), generateContent returns the
fallback generator's output, that output is non-empty, and the returned
string is independent of the network behaviour: a second all-failing network
produces the byte-identical string. -/
theorem all_providers_fail_fallback (call call₂ : Provider → String → CallOutcome)
    (ps : List Provider) (c : Cache) (now : Nat) (p ct l t : String)
    (hmiss : cacheGet c (cacheKeyOf p ct l t) now = none)
    (hfail : ∀ q ∈ ps, q.enabled = true →
      isSuccess (call q (buildPrompt p (templateFor ct) l t)) = false)
    (hfail₂ : ∀ q ∈ ps, q.enabled = true →
      isSuccess (call₂ q (buildPrompt p (templateFor ct) l t)) = false) :
    (generateContent call ps c now p ct l t).result
        = generateFallbackContent p ct l t
    ∧ generateFallbackContent p ct l t ≠ ""
    ∧ (generateContent call ps c now p ct l t).result
        = (generateContent call₂ ps c now p ct l t).result := by
  have hres : ∀ (cx : Provider → String → CallOutcome),
      (∀ q ∈ ps, q.enabled = true →
        isSuccess (cx q (buildPrompt p (templateFor ct) l t)) = false) →
      (generateContent cx ps c now p ct l t).result
        = generateFallbackContent p ct l t := by
    intro cx hf
    have htr : (tryProviders (fun q => cx q (buildPrompt p (templateFor ct) l t)) ps).1
        = none := by
      rw [tryProviders_none (fun q => cx q (buildPrompt p (templateFor ct) l t)) ps hf]
    rw [generateContent_miss cx ps c now p ct l t hmiss,
      generateMiss_of_none cx ps c now p ct l t _ htr]
  refine ⟨hres call hfail, generateFallbackContent_ne_empty p ct l t, ?_⟩
  rw [hres call hfail, hres call₂ hfail₂]

/-- C4 witness: with every provider erroring, the blog request returns the
deterministic blog fallback, which is non-empty. -/
theorem all_providers_fail_fallback_witness :
    (generateContent (fun _ _ => Except.error "timeout") providers [] 0
        "renewable energy adoption" "blog" "english" "professional").result
      = generateFallbackContent "renewable energy adoption" "blog" "english" "professional" :=
  (all_providers_fail_fallback (fun _ _ => Except.error "timeout")
      (fun _ _ => Except.error "unreachable") providers [] 0
      "renewable energy adoption" "blog" "english" "professional"
      rfl (fun q _ _ => by rfl) (fun q _ _ => by rfl)).1

/-- C5 counterexample: an empty (array) response body from huggingface does
not make the parse fail with a ProviderError as the claim states — the
optional chain yields undefined and parseResponse resolves successfully with
no value, refuting the claim that every empty or malformed body fails with a
named error. -/
theorem parseResponse_empty_array_silent :
    parseResponse (fun _ => "null") (JsonVal.arr []) "huggingface"
      = Except.ok none := rfl

/-- C5 amended: parsing extracts the text field correctly for all three
provider shapes — huggingface generated_text from array-wrapped and plain
object bodies, ollama-proxy and local-llm from the response or text field;
a null body makes the field access throw, which parseResponse converts into
the named parse failure, and callProvider rethrows it as a ProviderError
carrying the provider name; an empty-string, empty-array or field-missing
body instead resolves to undefined, which the orchestrator treats as a
failed attempt. -/
theorem parseResponse_shapes_and_null_error (stringify : JsonVal → String)
    (s : String) (hs : s ≠ "") :
    parseResponse stringify (.arr [.obj [("generated_text", .str s)]]) "huggingface"
        = .ok (some (.str s))
    ∧ parseResponse stringify (.obj [("generated_text", .str s)]) "huggingface"
        = .ok (some (.str s))
    ∧ parseResponse stringify (.obj [("response", .str s)]) "ollama-proxy"
        = .ok (some (.str s))
    ∧ parseResponse stringify (.obj [("text", .str s)]) "ollama-proxy"
        = .ok (some (.str s))
    ∧ parseResponse stringify (.obj [("response", .str s)]) "local-llm"
        = .ok (some (.str s))
    ∧ parseResponse stringify (.obj [("text", .str s)]) "local-llm"
        = .ok (some (.str s))
    ∧ parseResponse stringify .null "huggingface"
        = .error "Failed to parse response from huggingface"
    ∧ parseResponse stringify .null "ollama-proxy"
        = .error "Failed to parse response from ollama-proxy"
    ∧ parseResponse stringify .null "local-llm"
        = .error "Failed to parse response from local-llm"
    ∧ (∀ (net : Provider → Except String JsonVal) (pr : Provider),
        pr.name = "huggingface" → net pr = .ok .null →
        callProvider stringify net pr
          = .error "huggingface API call failed: Failed to parse response from huggingface")
    ∧ parseResponse stringify (.obj []) "huggingface" = .ok none
    ∧ parseResponse stringify (.str "") "huggingface" = .ok none
    ∧ parseResponse stringify (.obj []) "ollama-proxy" = .ok none := by
  have hb : (s == "") = false := beq_eq_false_iff_ne.mpr hs
  refine ⟨?_, ?_, ?_, ?_, ?_, ?_, rfl, rfl, rfl, ?_, rfl, rfl, rfl⟩
  · rfl
  · rfl
  · simp [parseResponse, parseResponseBody, parseResponseText, getField,
      jsTruthyOpt, jsTruthy, hb]
  · rfl
  · simp [parseResponse, parseResponseBody, parseResponseText, getField,
      jsTruthyOpt, jsTruthy, hb]
  · rfl
  · intro net pr hname hnet
    simp [callProvider, hname, hnet, parseResponse, parseResponseBody,
      parseHuggingface, getField]

/-- C5 witness: the amended parsing facts at a concrete non-empty payload
string and a concrete null-returning network. -/
theorem parseResponse_shapes_witness :
    parseResponse (fun _ => "null") (.obj [("response", .str "hi")]) "ollama-proxy"
        = .ok (some (.str "hi"))
    ∧ callProvider (fun _ => "null") (fun _ => .ok .null)
          ⟨"huggingface", "u", true⟩
        = .error "huggingface API call failed: Failed to parse response from huggingface" :=
  ⟨(parseResponse_shapes_and_null_error (fun _ => "null") "hi" (by decide)).2.2.1,
   (parseResponse_shapes_and_null_error (fun _ => "null") "hi" (by decide)).2.2.2.2.2.2.2.2.2.1
     (fun _ => .ok .null) ⟨"huggingface", "u", true⟩ rfl rfl⟩

/-- C6: the cache key is exactly the dash-joined template literal of
contentType, language, tone and the topic hash; the hash value is a signed
32-bit integer for every topic (the rolling hash is reduced to int32 at each
step); and for enum-valued fields the key determines contentType, language
and tone uniquely, so two requests differing in any of them never share a
key. -/
theorem cacheKey_format_and_injective :
    (∀ p ct l t, cacheKeyOf p ct l t
        = ct ++ "-" ++ l ++ "-" ++ t ++ "-" ++ hashString p)
    ∧ (∀ s, -2147483648 ≤ hashVal s ∧ hashVal s < 2147483648)
    ∧ (∀ p₁ p₂ ct₁ ct₂ l₁ l₂ t₁ t₂ : String,
        ct₁ ∈ contentTypeValues → ct₂ ∈ contentTypeValues →
        l₁ ∈ languageValues → l₂ ∈ languageValues →
        t₁ ∈ toneValues → t₂ ∈ toneValues →
        ¬ (ct₁ = ct₂ ∧ l₁ = l₂ ∧ t₁ = t₂) →
        cacheKeyOf p₁ ct₁ l₁ t₁ ≠ cacheKeyOf p₂ ct₂ l₂ t₂) := by
  refine ⟨fun p ct l t => rfl, hashVal_range, ?_⟩
  intro p₁ p₂ ct₁ ct₂ l₁ l₂ t₁ t₂ hc1 hc2 hl1 hl2 ht1 ht2 hne
  exact cacheKeyOf_inj p₁ p₂ ct₁ ct₂ l₁ l₂ t₁ t₂
    (enum_values_dash_free.1 ct₁ hc1) (enum_values_dash_free.1 ct₂ hc2)
    (enum_values_dash_free.2.1 l₁ hl1) (enum_values_dash_free.2.1 l₂ hl2)
    (enum_values_dash_free.2.2 t₁ ht1) (enum_values_dash_free.2.2 t₂ ht2) hne

/-- C6 witness: two concrete requests differing only in content type get
distinct cache keys even with the same topic. -/
theorem cacheKey_injective_witness :
    cacheKeyOf "x" "blog" "english" "professional"
      ≠ cacheKeyOf "x" "email" "english" "professional" :=
  cacheKey_format_and_injective.2.2 "x" "x" "blog" "email" "english" "english"
    "professional" "professional" (by decide) (by decide) (by decide) (by decide)
    (by decide) (by decide) (by decide)

/-- C7: the prompt builder (a pure function of its four arguments) produces
a string containing the literal topic and containing the template's section
names joined in declared order by the arrow separator; the language
directive is the empty string for english and for any unknown language, and
the tone directive is empty for any unknown tone. -/
theorem buildPrompt_contains_topic_and_sections (p : String)
    (tmpl : ContentTemplate) (l t : String) :
    (∃ a b, buildPrompt p tmpl l t = a ++ (p ++ b))
    ∧ (∃ a b, buildPrompt p tmpl l t
        = a ++ (String.intercalate " → " tmpl.sections ++ b))
    ∧ languageInstructionFor "english" = ""
    ∧ (∀ l₂, languageInstructions.lookup l₂ = none → languageInstructionFor l₂ = "")
    ∧ (∀ t₂, toneModifiers.lookup t₂ = none → toneInstructionFor t₂ = "") :=
  ⟨buildPrompt_topic p tmpl l t, buildPrompt_sections p tmpl l t, rfl,
   fun l₂ h => by simp [languageInstructionFor, h],
   fun t₂ h => by simp [toneInstructionFor, h]⟩

/-- C7 witness: a concrete prompt contains its topic, and a concrete unknown
language yields the empty directive. -/
theorem buildPrompt_contains_witness :
    (∃ a b, buildPrompt "solar power" blogTemplate "english" "professional"
        = a ++ ("solar power" ++ b))
    ∧ languageInstructionFor "latin" = "" :=
  ⟨(buildPrompt_contains_topic_and_sections "solar power" blogTemplate
      "english" "professional").1,
   (buildPrompt_contains_topic_and_sections "solar power" blogTemplate
      "english" "professional").2.2.2.1 "latin" rfl⟩

/-- C8: for every content type the fallback output starts with the bracketed
language marker line when language is not english; contains the bracketed
tone marker line (immediately after the language marker when present) when
tone is not professional; and with language english and tone professional
the output starts directly with the body, whose first character is never an
opening bracket, so no marker line appears. -/
theorem fallback_marker_lines (p ct l t : String) :
    (l ≠ "english" → ∃ rest, generateFallbackContent p ct l t
        = "[Content in " ++ l ++ "]\n\n" ++ rest)
    ∧ (t ≠ "professional" → ∃ rest, generateFallbackContent p ct l t
        = langNote l ++ ("[" ++ t ++ " tone]\n\n" ++ rest))
    ∧ (l = "english" → t = "professional" →
        ∃ c cs, (generateFallbackContent p ct l t).data = c :: cs ∧ c ≠ '[') := by
  obtain ⟨body, c, heq, ⟨cs, hdata⟩, hc⟩ := generateFallbackContent_decomp p ct l t
  refine ⟨?_, ?_, ?_⟩
  · intro hl
    have hln : langNote l = "[Content in " ++ l ++ "]\n\n" := by
      simp [langNote, hl]
    exact ⟨toneNote t ++ body, by rw [heq, hln]⟩
  · intro ht
    have htn : toneNote t = "[" ++ t ++ " tone]\n\n" := by
      simp [toneNote, ht]
    exact ⟨body, by rw [heq, htn]⟩
  · intro hl ht
    have hln : langNote l = "" := by simp [langNote, hl]
    have htn : toneNote t = "" := by simp [toneNote, ht]
    refine ⟨c, cs, ?_, hc⟩
    rw [heq, hln, htn]
    exact hdata

/-- C8 witness: a Spanish casual presentation starts with the language
marker, and an english professional blog starts with a non-bracket
character. -/
theorem fallback_marker_lines_witness :
    (∃ rest, generateFallbackContent "x" "presentation" "spanish" "casual"
        = "[Content in " ++ "spanish" ++ "]\n\n" ++ rest)
    ∧ (∃ c cs, (generateFallbackContent "x" "blog" "english" "professional").data
        = c :: cs ∧ c ≠ '[') :=
  ⟨(fallback_marker_lines "x" "presentation" "spanish" "casual").1 (by decide),
   (fallback_marker_lines "x" "blog" "english" "professional").2.2 rfl rfl⟩

/-- C9: a cache write leaves exactly one entry (the new one) under the
written fingerprint, leaves entries under every other fingerprint untouched,
and the at-most-one-entry-per-fingerprint invariant is preserved by a full
generateContent call whichever path it takes. -/
theorem cache_single_entry_per_fingerprint (c : Cache) (k v : String) (now : Nat) :
    ((cacheSet c k v now).filter (fun e => e.key == k) = [⟨k, v, now⟩])
    ∧ (∀ k₂, k₂ ≠ k → (cacheSet c k v now).filter (fun e => e.key == k₂)
        = c.filter (fun e => e.key == k₂))
    ∧ (∀ (call : Provider → String → CallOutcome) (ps : List Provider)
        (now₂ : Nat) (p ct l t : String),
        (∀ k₂, cacheCount c k₂ ≤ 1) →
        ∀ k₂, cacheCount (generateContent call ps c now₂ p ct l t).cache k₂ ≤ 1) := by
  refine ⟨cacheSet_filter_self c k v now,
    fun k₂ h => cacheSet_filter_other c k v now k₂ h, ?_⟩
  intro call ps now₂ p ct l t hwf k₂
  rcases generateContent_cache_shape call ps c now₂ p ct l t with h | ⟨r, h⟩
  · rw [h]; exact hwf k₂
  · rw [h]; exact cacheCount_cacheSet_le_one c _ r now₂ hwf k₂

/-- C9 witness: overwriting a concrete one-entry cache keeps a single entry
under the key, and a full generateContent call on that cache keeps every
fingerprint count at most one. -/
theorem cache_single_entry_witness :
    ((cacheSet [⟨"a", "x", 0⟩] "a" "y" 5).filter (fun e => e.key == "a")
        = [⟨"a", "y", 5⟩])
    ∧ cacheCount (generateContent (fun _ _ => Except.error "down") providers
        [⟨"a", "x", 0⟩] 7 "q" "email" "english" "professional").cache "a" ≤ 1 :=
  ⟨(cache_single_entry_per_fingerprint [⟨"a", "x", 0⟩] "a" "y" 5).1,
   (cache_single_entry_per_fingerprint [⟨"a", "x", 0⟩] "a" "y" 5).2.2
     (fun _ _ => Except.error "down") providers 7 "q" "email" "english" "professional"
     (fun k₂ => by
       simpa [cacheCount] using
         List.length_filter_le (fun e : CacheEntry => e.key == k₂)
           ([⟨"a", "x", 0⟩] : Cache)) "a"⟩

/-- C10: an enabled provider whose call resolves to a falsy value
(undefined/null modelled as none, or the empty string) is treated exactly
like a failure: the loop records the attempt and moves to the remaining
providers; the orchestrator never returns the empty string and never stores
an empty string in the cache; and when every enabled provider fails or
resolves falsy the loop produces no value, so the orchestrator falls through
to the fallback generator. -/
theorem falsy_provider_result_skipped :
    (∀ (pc : Provider → CallOutcome) (q : Provider) (qs : List Provider),
        q.enabled = true → (pc q = .ok none ∨ pc q = .ok (some "")) →
        tryProviders pc (q :: qs)
          = ((tryProviders pc qs).1, q.name :: (tryProviders pc qs).2))
    ∧ (∀ (call : Provider → String → CallOutcome) (ps : List Provider)
        (c : Cache) (now : Nat) (p ct l t : String),
        (∀ e ∈ c, e.val ≠ "") →
        (generateContent call ps c now p ct l t).result ≠ ""
        ∧ ∀ e ∈ (generateContent call ps c now p ct l t).cache, e.val ≠ "")
    ∧ (∀ (pc : Provider → CallOutcome) (qs : List Provider),
        (∀ q ∈ qs, q.enabled = true → isSuccess (pc q) = false) →
        (tryProviders pc qs).1 = none) := by
  refine ⟨?_, ?_, ?_⟩
  · intro pc q qs hq hfal
    have hs : isSuccess (pc q) = false := by
      rcases hfal with h | h <;> simp [isSuccess, h]
    exact tryProviders_cons_fail pc q qs hq hs
  · intro call ps c now p ct l t hc
    exact generateContent_vals call ps c now p ct l t hc
  · intro pc qs h
    rw [tryProviders_none pc qs h]

/-- C10 witness: a network resolving to the empty string makes the loop skip
the (enabled) provider and record the attempt, and the orchestrator starting
from the empty cache never returns the empty string. -/
theorem falsy_provider_result_skipped_witness :
    tryProviders (fun _ => Except.ok (some "")) [⟨"p1", "u", true⟩] = (none, ["p1"])
    ∧ (generateContent (fun _ _ => Except.ok (some "")) providers [] 0
        "q" "doc" "english" "professional").result ≠ "" :=
  ⟨by
    exact falsy_provider_result_skipped.1 (fun _ => Except.ok (some ""))
      ⟨"p1", "u", true⟩ [] rfl (Or.inr rfl),
   (falsy_provider_result_skipped.2.1 (fun _ _ => Except.ok (some "")) providers
      [] 0 "q" "doc" "english" "professional"
      (fun e he => absurd he (List.not_mem_nil e))).1⟩

end AIService
